import Mathlib

/-!
Verification of `deployment_package/scripts/security_check.py`.

The script is embedded shallowly: the filesystem visible to the script is a
structure `FS` (existence of paths, text contents, stat modes), the mutable
`SecurityChecker` object is a record threaded through each check, and each
`check_*` method becomes a function `FS → SecurityChecker → SecurityChecker`
(the directory check also returns the updated filesystem, since it creates
directories).  Python's substring operator `in` is embedded as `pyIn`, and
`str.lower()` as `pyLower` (per-character ASCII lowering, which is what
`lower` does on the ASCII text the script handles).
-/

namespace SecurityCheck

/-- Boolean test that `n` is a prefix of `h`, on character lists. -/
def strHasPre : List Char → List Char → Bool
  | [], _ => true
  | _ :: _, [] => false
  | a :: as, b :: bs => a == b && strHasPre as bs

/-- Boolean test that `n` occurs as a contiguous substring of `h`. -/
def strHasSub (n : List Char) : List Char → Bool
  | [] => n.isEmpty
  | b :: bs => strHasPre n (b :: bs) || strHasSub n bs

/-- Embedding of Python's `needle in hay` on strings. -/
def pyIn (needle hay : String) : Bool :=
  strHasSub needle.toList hay.toList

/-- Embedding of Python's `str.lower()` (ASCII letters; the script only
lowercases environment-file text). -/
def pyLower (s : String) : String :=
  ⟨s.data.map Char.toLower⟩

/-- The filesystem state the script observes: which paths exist, the text
`read_text()` would return for a path, and the `st_mode` of a path. -/
structure FS where
  pathExists : String → Bool
  content : String → String
  mode : String → Nat

/-- `Path(p).mkdir(parents=True, exist_ok=True)`: afterwards `p` exists and
nothing else changes (the required directory names are single components, so
no separate parent entries arise). -/
def FS.mkdir (fs : FS) (p : String) : FS :=
  { fs with pathExists := fun q => if q = p then true else fs.pathExists q }

/-- The mutable state of the `SecurityChecker` object. -/
structure SecurityChecker where
  issues : List String
  warnings : List String
  checks_passed : Nat
  checks_failed : Nat
deriving DecidableEq, Repr

/-- `SecurityChecker.__init__`. -/
def SecurityChecker.init : SecurityChecker :=
  { issues := [], warnings := [], checks_passed := 0, checks_failed := 0 }

/-- The `required_vars` list of `check_env_file`. -/
def required_vars : List String :=
  ["SECRET_KEY", "DB_PASSWORD", "DB_NAME", "DB_USER",
   "ALLOWED_HOSTS", "DEBUG", "DJANGO_ENV"]

/-- The `weak_patterns` list of `check_env_file`. -/
def weak_patterns : List (String × String) :=
  [("SECRET_KEY", "django-insecure"),
   ("DB_PASSWORD", "postgres"),
   ("DEBUG", "True"),
   ("SECRET_KEY", "change"),
   ("SECRET_KEY", "your-secret")]

/-- The body of the `for var, pattern in weak_patterns` loop of
`check_env_file`. -/
def weakStep (env_content : String) (c : SecurityChecker) (vp : String × String) :
    SecurityChecker :=
  if pyIn (pyLower vp.2) (pyLower env_content) then
    { c with warnings := c.warnings ++ ["⚠️  Possible weak/default value for " ++ vp.1] }
  else c

/-- `SecurityChecker.check_env_file`.  `oct(st_mode)[-3:][2] != '0'` is the
last octal digit of the mode, i.e. `mode % 8 ≠ 0`. -/
def check_env_file (fs : FS) (c : SecurityChecker) : SecurityChecker :=
  if fs.pathExists ".env" = false then
    { c with
        issues := c.issues ++ ["❌ .env file not found"],
        checks_failed := c.checks_failed + 1 }
  else
    let c :=
      if fs.mode ".env" % 8 ≠ 0 then
        { c with warnings :=
            c.warnings ++ ["⚠️  .env file is world-readable (consider chmod 600)"] }
      else c
    let env_content := fs.content ".env"
    let missing_vars := required_vars.filter (fun v => !pyIn (v ++ "=") env_content)
    let c :=
      if missing_vars ≠ [] then
        { c with
            issues := c.issues ++
              ["❌ Missing environment variables: " ++ String.intercalate ", " missing_vars],
            checks_failed := c.checks_failed + 1 }
      else
        { c with checks_passed := c.checks_passed + 1 }
    weak_patterns.foldl (weakStep env_content) c

/-- `SecurityChecker.check_ssl_certificates`. -/
def check_ssl_certificates (fs : FS) (c : SecurityChecker) : SecurityChecker :=
  if fs.pathExists "nginx_ssl" = false then
    { c with warnings := c.warnings ++ ["⚠️  nginx_ssl directory not found"] }
  else
    let c :=
      if fs.pathExists "nginx_ssl/fullchain.pem" = false then
        { c with
            issues := c.issues ++ ["❌ SSL certificate (fullchain.pem) not found"],
            checks_failed := c.checks_failed + 1 }
      else
        { c with checks_passed := c.checks_passed + 1 }
    if fs.pathExists "nginx_ssl/privkey.pem" = false then
      { c with
          issues := c.issues ++ ["❌ SSL private key (privkey.pem) not found"],
          checks_failed := c.checks_failed + 1 }
    else
      { c with checks_passed := c.checks_passed + 1 }

/-- The `required_files` list of `check_docker_files`. -/
def required_files : List String :=
  ["Dockerfile.prod", "docker-compose.prod.yml", "entrypoint.prod.sh", "nginx.prod.conf"]

/-- The body of the `for file in required_files` loop of `check_docker_files`. -/
def dockerStep (fs : FS) (c : SecurityChecker) (file : String) : SecurityChecker :=
  if fs.pathExists file = false then
    { c with
        issues := c.issues ++ ["❌ Required file not found: " ++ file],
        checks_failed := c.checks_failed + 1 }
  else
    { c with checks_passed := c.checks_passed + 1 }

/-- `SecurityChecker.check_docker_files`. -/
def check_docker_files (fs : FS) (c : SecurityChecker) : SecurityChecker :=
  required_files.foldl (dockerStep fs) c

/-- The `required_dirs` list of `check_directory_structure`. -/
def required_dirs : List String :=
  ["logs", "db_backups", "nginx_ssl"]

/-- The body of the `for dir_name in required_dirs` loop of
`check_directory_structure`: it threads both the filesystem (because of
`mkdir`) and the checker. -/
def dirStep (p : FS × SecurityChecker) (dir_name : String) : FS × SecurityChecker :=
  if p.1.pathExists dir_name = false then
    (p.1.mkdir dir_name,
     { p.2 with
         warnings := p.2.warnings ++
           ["⚠️  Directory not found: " ++ dir_name ++ " (will be created)"] })
  else
    (p.1, { p.2 with checks_passed := p.2.checks_passed + 1 })

/-- `SecurityChecker.check_directory_structure`.  Creating a missing directory
mutates the filesystem, so the updated filesystem is returned as well. -/
def check_directory_structure (fs : FS) (c : SecurityChecker) : FS × SecurityChecker :=
  required_dirs.foldl dirStep (fs, c)

/-- The `sensitive_patterns` list of `check_gitignore`. -/
def sensitive_patterns : List String :=
  [".env", "*.pem", "*.key", "db_backups", "logs"]

/-- `SecurityChecker.check_gitignore`. -/
def check_gitignore (fs : FS) (c : SecurityChecker) : SecurityChecker :=
  if fs.pathExists ".gitignore" = false then
    { c with warnings := c.warnings ++ ["⚠️  .gitignore not found"] }
  else
    let content := fs.content ".gitignore"
    let missing := sensitive_patterns.filter (fun pat => !pyIn pat content)
    if missing ≠ [] then
      { c with warnings := c.warnings ++
          ["⚠️  Missing patterns in .gitignore: " ++ String.intercalate ", " missing] }
    else
      { c with checks_passed := c.checks_passed + 1 }

/-- `SecurityChecker.check_python_compiled`. -/
def check_python_compiled (fs : FS) (c : SecurityChecker) : SecurityChecker :=
  if fs.pathExists "build_secure.py" = true then
    { c with checks_passed := c.checks_passed + 1 }
  else
    { c with warnings := c.warnings ++ ["⚠️  build_secure.py not found"] }

/-- The `security_headers` list of `check_security_headers`. -/
def security_headers : List String :=
  ["X-Frame-Options", "X-Content-Type-Options", "X-XSS-Protection",
   "Strict-Transport-Security"]

/-- `SecurityChecker.check_security_headers`. -/
def check_security_headers (fs : FS) (c : SecurityChecker) : SecurityChecker :=
  if fs.pathExists "nginx.prod.conf" = false then
    c
  else
    let content := fs.content "nginx.prod.conf"
    let missing := security_headers.filter (fun h => !pyIn h content)
    if missing ≠ [] then
      { c with warnings := c.warnings ++
          ["⚠️  Missing security headers: " ++ String.intercalate ", " missing] }
    else
      { c with checks_passed := c.checks_passed + 1 }

/-- `SecurityChecker.print_summary`: returns `1` exactly when the issues list
is non-empty, else `0` (printing aside). -/
def print_summary (c : SecurityChecker) : Nat :=
  if c.issues ≠ [] then 1 else 0

/-- The checks that `main` runs after `check_env_file`, in source order. -/
def runLaterChecks (fs : FS) (c : SecurityChecker) : FS × SecurityChecker :=
  let c := check_ssl_certificates fs c
  let c := check_docker_files fs c
  let p := check_directory_structure fs c
  let c := check_gitignore p.1 (p.2)
  let c := check_python_compiled p.1 c
  let c := check_security_headers p.1 c
  (p.1, c)

/-- The full check sequence of `main`, starting from a fresh checker. -/
def runChecks (fs : FS) : FS × SecurityChecker :=
  runLaterChecks fs (check_env_file fs SecurityChecker.init)

/-- The checker state at the end of a run. -/
def runChecksState (fs : FS) : SecurityChecker :=
  (runChecks fs).2

/-- `main` followed by `sys.exit(...)`: the process exit status of one run. -/
def securityCheckMain (fs : FS) : Nat :=
  print_summary (runChecksState fs)

/-! Derived quantities of a run, read off from the source: which required
variables are missing from the environment file, which issues and warnings
each check contributes, and so on.  These are used to characterise the checks. -/

/-- The `missing_vars` list computed by `check_env_file`. -/
def envMissingVars (fs : FS) : List String :=
  required_vars.filter (fun v => !pyIn (v ++ "=") (fs.content ".env"))

/-- The issue (if any) that the required-variables scan of `check_env_file`
contributes. -/
def envVarIssue (fs : FS) : List String :=
  if envMissingVars fs ≠ [] then
    ["❌ Missing environment variables: " ++ String.intercalate ", " (envMissingVars fs)]
  else []

/-- The warning (if any) that the permission test of `check_env_file`
contributes. -/
def envPermWarning (fs : FS) : List String :=
  if fs.mode ".env" % 8 ≠ 0 then
    ["⚠️  .env file is world-readable (consider chmod 600)"]
  else []

/-- The warnings that the weak-value scan of `check_env_file` contributes. -/
def envWeakWarnings (fs : FS) : List String :=
  (weak_patterns.filter (fun vp => pyIn (pyLower vp.2) (pyLower (fs.content ".env")))).map
    (fun vp => "⚠️  Possible weak/default value for " ++ vp.1)

/-- The issues that `check_ssl_certificates` contributes. -/
def sslIssuesDelta (fs : FS) : List String :=
  if fs.pathExists "nginx_ssl" = false then []
  else
    (if fs.pathExists "nginx_ssl/fullchain.pem" = false then
       ["❌ SSL certificate (fullchain.pem) not found"]
     else []) ++
    (if fs.pathExists "nginx_ssl/privkey.pem" = false then
       ["❌ SSL private key (privkey.pem) not found"]
     else [])

/-- The required Docker artifact files that are absent. -/
def dockerMissingFiles (fs : FS) : List String :=
  required_files.filter (fun f => !fs.pathExists f)

/-- The issues that `check_docker_files` contributes: one per missing file. -/
def dockerIssuesDelta (fs : FS) : List String :=
  (dockerMissingFiles fs).map (fun f => "❌ Required file not found: " ++ f)

/-- The `missing` list computed by `check_gitignore`. -/
def gitignoreMissing (fs : FS) : List String :=
  sensitive_patterns.filter (fun pat => !pyIn pat (fs.content ".gitignore"))

/-- The `missing` list computed by `check_security_headers`. -/
def headersMissing (fs : FS) : List String :=
  security_headers.filter (fun h => !pyIn h (fs.content "nginx.prod.conf"))

/-- No entry of `weak_patterns` matches the environment-file text. -/
def noWeakPatterns (fs : FS) : Bool :=
  weak_patterns.all (fun vp => !pyIn (pyLower vp.2) (pyLower (fs.content ".env")))

/-- Every file and directory the script requires: the environment file, the
TLS directory with its two files, the four deployment artifacts, the three
required directories, the ignore file and the build script. -/
def requiredPaths : List String :=
  [".env", "nginx_ssl", "nginx_ssl/fullchain.pem", "nginx_ssl/privkey.pem",
   "Dockerfile.prod", "docker-compose.prod.yml", "entrypoint.prod.sh",
   "nginx.prod.conf", "logs", "db_backups", ".gitignore", "build_secure.py"]

/-- Every required file and directory is present. -/
def allRequiredPresent (fs : FS) : Bool :=
  requiredPaths.all fs.pathExists

/-! Concrete filesystems used to witness the theorems on concrete runs. -/

/-- A completely empty working directory. -/
def fsNone : FS :=
  { pathExists := fun _ => false, content := fun _ => "", mode := fun _ => 0 }

/-- A well-configured environment file: all required variables, no weak
values. -/
def goodEnv : String :=
  "SECRET_KEY=Xk9mQ2vR8sLw\nDB_PASSWORD=Vp7nT4qZ\nDB_NAME=matdb\nDB_USER=matuser\nALLOWED_HOSTS=example.com\nDEBUG=False\nDJANGO_ENV=production\n"

/-- An ignore file covering every sensitive pattern. -/
def goodGitignore : String :=
  ".env\n*.pem\n*.key\ndb_backups\nlogs\n"

/-- A web-server configuration mentioning every required security header. -/
def goodNginx : String :=
  "add_header X-Frame-Options DENY; add_header X-Content-Type-Options nosniff; add_header X-XSS-Protection 1; add_header Strict-Transport-Security max-age=63072000;"

/-- A fully populated, well-configured working directory (mode `0o600` = 384
for the environment file). -/
def fsGood : FS :=
  { pathExists := fun p => decide (p ∈ requiredPaths),
    content := fun p =>
      if p = ".env" then goodEnv
      else if p = ".gitignore" then goodGitignore
      else if p = "nginx.prod.conf" then goodNginx
      else "",
    mode := fun _ => 384 }

/-- Every required path present, but empty file contents and a world-readable
environment file (mode `0o644` = 420). -/
def fsBad : FS :=
  { pathExists := fun p => decide (p ∈ requiredPaths),
    content := fun _ => "",
    mode := fun _ => 420 }

/-- An environment file whose secret key carries the (mixed-case) default
`Django-Insecure` marker. -/
def env7 : String :=
  "SECRET_KEY=Django-Insecure-xyz\nDB_PASSWORD=Vp7nT4qZ\nDB_NAME=matdb\nDB_USER=matuser\nALLOWED_HOSTS=example.com\nDEBUG=False\nDJANGO_ENV=production\n"

/-- `fsGood` with `env7` as the environment file. -/
def fs7 : FS :=
  { fsGood with content := fun p => if p = ".env" then env7 else fsGood.content p }

/-- An environment file whose `DB_PASSWORD` value is strong, but whose
`DB_USER` value is the string `postgres`. -/
def env10 : String :=
  "SECRET_KEY=Xk9mQ2vR8sLw\nDB_PASSWORD=Vp7nT4qZ\nDB_NAME=matdb\nDB_USER=postgres\nALLOWED_HOSTS=example.com\nDEBUG=False\nDJANGO_ENV=production\n"

/-- `fsGood` with `env10` as the environment file. -/
def fs10 : FS :=
  { fsGood with content := fun p => if p = ".env" then env10 else fsGood.content p }

/-! ## Substring machinery -/

theorem strHasPre_ex (n : List Char) :
    ∀ h : List Char, strHasPre n h = true ↔ ∃ t, n ++ t = h := by
  induction n with
  | nil => intro h; simp [strHasPre]
  | cons a as ih =>
    intro h
    cases h with
    | nil => simp [strHasPre]
    | cons b bs =>
      simp only [strHasPre, Bool.and_eq_true, beq_iff_eq, ih, List.cons_append]
      constructor
      · rintro ⟨rfl, t, rfl⟩
        exact ⟨t, rfl⟩
      · rintro ⟨t, ht⟩
        have h1 := List.head_eq_of_cons_eq ht
        have h2 := List.tail_eq_of_cons_eq ht
        exact ⟨h1, t, h2⟩

theorem strHasSub_ex (n : List Char) :
    ∀ h : List Char, strHasSub n h = true ↔ ∃ u v, u ++ n ++ v = h := by
  intro h
  induction h with
  | nil =>
    simp only [strHasSub, List.isEmpty_iff]
    constructor
    · rintro rfl
      exact ⟨[], [], rfl⟩
    · rintro ⟨u, v, huv⟩
      obtain ⟨hun, hv⟩ := List.append_eq_nil.mp huv
      obtain ⟨hu, hn⟩ := List.append_eq_nil.mp hun
      exact hn
  | cons b bs ih =>
    simp only [strHasSub, Bool.or_eq_true, strHasPre_ex, ih]
    constructor
    · rintro (⟨t, ht⟩ | ⟨u, v, huv⟩)
      · exact ⟨[], t, by simpa using ht⟩
      · exact ⟨b :: u, v, by simp [huv]⟩
    · rintro ⟨u, v, huv⟩
      cases u with
      | nil =>
        left
        exact ⟨v, by simpa using huv⟩
      | cons x xs =>
        right
        have huv' : x :: (xs ++ n ++ v) = b :: bs := by simpa using huv
        exact ⟨xs, v, List.tail_eq_of_cons_eq huv'⟩

/-- If `A` occurs in `s` and `B` is a contiguous piece of `A`, then `B`
occurs in `s` (Python `in` is closed under taking substrings of the needle). -/
theorem pyIn_of_parts (B A s : String) (u v : List Char)
    (hA : A.toList = u ++ B.toList ++ v) (h : pyIn A s = true) : pyIn B s = true := by
  rw [pyIn, strHasSub_ex] at h
  obtain ⟨x, y, hxy⟩ := h
  rw [pyIn, strHasSub_ex]
  refine ⟨x ++ u, v ++ y, ?_⟩
  rw [hA] at hxy
  simpa [List.append_assoc] using hxy

/-! ## Characterisations of the individual checks -/

theorem weakStep_foldl (content : String) :
    ∀ (l : List (String × String)) (c : SecurityChecker),
      l.foldl (weakStep content) c =
        { c with
            warnings := c.warnings ++
              (l.filter (fun vp => pyIn (pyLower vp.2) (pyLower content))).map
                (fun vp => "⚠️  Possible weak/default value for " ++ vp.1) } := by
  intro l
  induction l with
  | nil => intro c; simp
  | cons a as ih =>
    intro c
    by_cases hc : pyIn (pyLower a.2) (pyLower content) = true <;>
      simp [List.foldl_cons, weakStep, hc, ih, List.filter_cons, List.append_assoc]

theorem dockerStep_foldl (fs : FS) :
    ∀ (l : List String) (c : SecurityChecker),
      l.foldl (dockerStep fs) c =
        { c with
            issues := c.issues ++
              (l.filter (fun f => !fs.pathExists f)).map
                (fun f => "❌ Required file not found: " ++ f),
            checks_failed := c.checks_failed + (l.filter (fun f => !fs.pathExists f)).length,
            checks_passed := c.checks_passed + (l.filter (fun f => fs.pathExists f)).length } := by
  intro l
  induction l with
  | nil => intro c; simp
  | cons a as ih =>
    intro c
    by_cases hc : fs.pathExists a = false <;>
      simp [List.foldl_cons, dockerStep, hc, ih, List.filter_cons, List.append_assoc,
        Nat.add_assoc, Nat.add_comm, Nat.add_left_comm]

theorem check_env_file_spec (fs : FS) (c : SecurityChecker) :
    check_env_file fs c =
      if fs.pathExists ".env" = false then
        { c with
            issues := c.issues ++ ["❌ .env file not found"],
            checks_failed := c.checks_failed + 1 }
      else
        { c with
            issues := c.issues ++ envVarIssue fs,
            warnings := c.warnings ++ envPermWarning fs ++ envWeakWarnings fs,
            checks_passed := c.checks_passed + (if envMissingVars fs = [] then 1 else 0),
            checks_failed := c.checks_failed + (if envMissingVars fs = [] then 0 else 1) } := by
  unfold check_env_file
  split
  · rfl
  · rw [weakStep_foldl]
    unfold envVarIssue envPermWarning envWeakWarnings envMissingVars
    by_cases h1 : fs.mode ".env" % 8 ≠ 0 <;>
      by_cases h2 :
        (required_vars.filter (fun v => !pyIn (v ++ "=") (fs.content ".env"))) = [] <;>
      simp [h1, h2, List.append_assoc]

theorem check_ssl_spec (fs : FS) (c : SecurityChecker) :
    check_ssl_certificates fs c =
      if fs.pathExists "nginx_ssl" = false then
        { c with warnings := c.warnings ++ ["⚠️  nginx_ssl directory not found"] }
      else
        { c with
            issues := c.issues ++ sslIssuesDelta fs,
            checks_passed := c.checks_passed +
              (if fs.pathExists "nginx_ssl/fullchain.pem" = false then 0 else 1) +
              (if fs.pathExists "nginx_ssl/privkey.pem" = false then 0 else 1),
            checks_failed := c.checks_failed +
              (if fs.pathExists "nginx_ssl/fullchain.pem" = false then 1 else 0) +
              (if fs.pathExists "nginx_ssl/privkey.pem" = false then 1 else 0) } := by
  unfold check_ssl_certificates sslIssuesDelta
  by_cases h0 : fs.pathExists "nginx_ssl" = false
  · simp [h0]
  · by_cases h1 : fs.pathExists "nginx_ssl/fullchain.pem" = false <;>
      by_cases h2 : fs.pathExists "nginx_ssl/privkey.pem" = false <;>
      simp [h0, h1, h2, List.append_assoc]

theorem check_docker_spec (fs : FS) (c : SecurityChecker) :
    check_docker_files fs c =
      { c with
          issues := c.issues ++ dockerIssuesDelta fs,
          checks_failed := c.checks_failed + (dockerMissingFiles fs).length,
          checks_passed := c.checks_passed +
            (required_files.filter (fun f => fs.pathExists f)).length } := by
  unfold check_docker_files dockerIssuesDelta dockerMissingFiles
  exact dockerStep_foldl fs required_files c

theorem check_gitignore_spec (fs : FS) (c : SecurityChecker) :
    check_gitignore fs c =
      if fs.pathExists ".gitignore" = false then
        { c with warnings := c.warnings ++ ["⚠️  .gitignore not found"] }
      else if gitignoreMissing fs ≠ [] then
        { c with warnings := c.warnings ++
            ["⚠️  Missing patterns in .gitignore: " ++
              String.intercalate ", " (gitignoreMissing fs)] }
      else
        { c with checks_passed := c.checks_passed + 1 } := rfl

theorem check_headers_spec (fs : FS) (c : SecurityChecker) :
    check_security_headers fs c =
      if fs.pathExists "nginx.prod.conf" = false then c
      else if headersMissing fs ≠ [] then
        { c with warnings := c.warnings ++
            ["⚠️  Missing security headers: " ++
              String.intercalate ", " (headersMissing fs)] }
      else
        { c with checks_passed := c.checks_passed + 1 } := rfl

theorem check_dirs_snd (fs : FS) (c : SecurityChecker) :
    (check_directory_structure fs c).2 =
      { c with
          warnings := c.warnings ++
            (required_dirs.filter (fun d => !fs.pathExists d)).map
              (fun d => "⚠️  Directory not found: " ++ d ++ " (will be created)"),
          checks_passed := c.checks_passed +
            (required_dirs.filter (fun d => fs.pathExists d)).length } := by
  cases h1 : fs.pathExists "logs" <;> cases h2 : fs.pathExists "db_backups" <;>
    cases h3 : fs.pathExists "nginx_ssl" <;>
    simp [check_directory_structure, required_dirs, dirStep, FS.mkdir, h1, h2, h3,
      List.append_assoc]

theorem check_dirs_fst_exists (fs : FS) (c : SecurityChecker) :
    (check_directory_structure fs c).1.pathExists "logs" = true ∧
    (check_directory_structure fs c).1.pathExists "db_backups" = true ∧
    (check_directory_structure fs c).1.pathExists "nginx_ssl" = true := by
  cases h1 : fs.pathExists "logs" <;> cases h2 : fs.pathExists "db_backups" <;>
    cases h3 : fs.pathExists "nginx_ssl" <;>
    simp [check_directory_structure, required_dirs, dirStep, FS.mkdir, h1, h2, h3]

theorem check_dirs_fst_frame (fs : FS) (c : SecurityChecker) (q : String)
    (hq1 : q ≠ "logs") (hq2 : q ≠ "db_backups") (hq3 : q ≠ "nginx_ssl") :
    (check_directory_structure fs c).1.pathExists q = fs.pathExists q := by
  cases h1 : fs.pathExists "logs" <;> cases h2 : fs.pathExists "db_backups" <;>
    cases h3 : fs.pathExists "nginx_ssl" <;>
    simp [check_directory_structure, required_dirs, dirStep, FS.mkdir, h1, h2, h3,
      hq1, hq2, hq3]

theorem check_dirs_fst_content (fs : FS) (c : SecurityChecker) :
    (check_directory_structure fs c).1.content = fs.content := by
  cases h1 : fs.pathExists "logs" <;> cases h2 : fs.pathExists "db_backups" <;>
    cases h3 : fs.pathExists "nginx_ssl" <;>
    simp [check_directory_structure, required_dirs, dirStep, FS.mkdir, h1, h2, h3]

theorem check_dirs_fst_mode (fs : FS) (c : SecurityChecker) :
    (check_directory_structure fs c).1.mode = fs.mode := by
  cases h1 : fs.pathExists "logs" <;> cases h2 : fs.pathExists "db_backups" <;>
    cases h3 : fs.pathExists "nginx_ssl" <;>
    simp [check_directory_structure, required_dirs, dirStep, FS.mkdir, h1, h2, h3]

/-! ## How each check changes the issues list -/

theorem ssl_issues (fs : FS) (c : SecurityChecker) :
    (check_ssl_certificates fs c).issues = c.issues ++ sslIssuesDelta fs := by
  by_cases h : fs.pathExists "nginx_ssl" = false
  · simp [check_ssl_spec, h, sslIssuesDelta]
  · simp [check_ssl_spec, h]

theorem docker_issues (fs : FS) (c : SecurityChecker) :
    (check_docker_files fs c).issues = c.issues ++ dockerIssuesDelta fs := by
  rw [check_docker_spec]

theorem dirs_issues (fs : FS) (c : SecurityChecker) :
    (check_directory_structure fs c).2.issues = c.issues := by
  rw [check_dirs_snd]

theorem gitignore_issues (fs : FS) (c : SecurityChecker) :
    (check_gitignore fs c).issues = c.issues := by
  rw [check_gitignore_spec]
  split
  · rfl
  · split <;> rfl

theorem python_issues (fs : FS) (c : SecurityChecker) :
    (check_python_compiled fs c).issues = c.issues := by
  unfold check_python_compiled
  split <;> rfl

theorem headers_issues (fs : FS) (c : SecurityChecker) :
    (check_security_headers fs c).issues = c.issues := by
  rw [check_headers_spec]
  split
  · rfl
  · split <;> rfl

/-- The issues accumulated after `check_env_file` come exactly from the TLS
check and the Docker-files check; no later check adds an issue. -/
theorem later_issues (fs : FS) (c : SecurityChecker) :
    (runLaterChecks fs c).2.issues = c.issues ++ sslIssuesDelta fs ++ dockerIssuesDelta fs := by
  unfold runLaterChecks
  rw [headers_issues, python_issues, gitignore_issues, dirs_issues, docker_issues, ssl_issues]

/-! ## How each check changes the warnings list -/

theorem ssl_warnings (fs : FS) (c : SecurityChecker) :
    (check_ssl_certificates fs c).warnings = c.warnings ++
      (if fs.pathExists "nginx_ssl" = false then ["⚠️  nginx_ssl directory not found"]
       else []) := by
  by_cases h : fs.pathExists "nginx_ssl" = false <;> simp [check_ssl_spec, h]

theorem docker_warnings (fs : FS) (c : SecurityChecker) :
    (check_docker_files fs c).warnings = c.warnings := by
  rw [check_docker_spec]

theorem gitignore_warnings (fs : FS) (c : SecurityChecker) :
    (check_gitignore fs c).warnings = c.warnings ++
      (if fs.pathExists ".gitignore" = false then ["⚠️  .gitignore not found"]
       else if gitignoreMissing fs ≠ [] then
         ["⚠️  Missing patterns in .gitignore: " ++
           String.intercalate ", " (gitignoreMissing fs)]
       else []) := by
  rw [check_gitignore_spec]
  by_cases h1 : fs.pathExists ".gitignore" = false <;>
    by_cases h2 : gitignoreMissing fs = [] <;> simp [h1, h2]

theorem python_warnings (fs : FS) (c : SecurityChecker) :
    (check_python_compiled fs c).warnings = c.warnings ++
      (if fs.pathExists "build_secure.py" = true then []
       else ["⚠️  build_secure.py not found"]) := by
  unfold check_python_compiled
  by_cases h : fs.pathExists "build_secure.py" = true <;> simp [h]

theorem headers_warnings (fs : FS) (c : SecurityChecker) :
    (check_security_headers fs c).warnings = c.warnings ++
      (if fs.pathExists "nginx.prod.conf" = false then []
       else if headersMissing fs ≠ [] then
         ["⚠️  Missing security headers: " ++
           String.intercalate ", " (headersMissing fs)]
       else []) := by
  rw [check_headers_spec]
  by_cases h1 : fs.pathExists "nginx.prod.conf" = false <;>
    by_cases h2 : headersMissing fs = [] <;> simp [h1, h2]

/-! ## Warnings are only appended, never removed -/

theorem ssl_warn_mono (fs : FS) (c : SecurityChecker) (w : String)
    (hw : w ∈ c.warnings) : w ∈ (check_ssl_certificates fs c).warnings := by
  rw [ssl_warnings]
  exact List.mem_append_left _ hw

theorem docker_warn_mono (fs : FS) (c : SecurityChecker) (w : String)
    (hw : w ∈ c.warnings) : w ∈ (check_docker_files fs c).warnings := by
  rw [docker_warnings]
  exact hw

theorem dirs_warn_mono (fs : FS) (c : SecurityChecker) (w : String)
    (hw : w ∈ c.warnings) : w ∈ (check_directory_structure fs c).2.warnings := by
  rw [check_dirs_snd]
  exact List.mem_append_left _ hw

theorem gitignore_warn_mono (fs : FS) (c : SecurityChecker) (w : String)
    (hw : w ∈ c.warnings) : w ∈ (check_gitignore fs c).warnings := by
  rw [gitignore_warnings]
  exact List.mem_append_left _ hw

theorem python_warn_mono (fs : FS) (c : SecurityChecker) (w : String)
    (hw : w ∈ c.warnings) : w ∈ (check_python_compiled fs c).warnings := by
  rw [python_warnings]
  exact List.mem_append_left _ hw

theorem headers_warn_mono (fs : FS) (c : SecurityChecker) (w : String)
    (hw : w ∈ c.warnings) : w ∈ (check_security_headers fs c).warnings := by
  rw [headers_warnings]
  exact List.mem_append_left _ hw

theorem later_warn_mono (fs : FS) (c : SecurityChecker) (w : String)
    (hw : w ∈ c.warnings) : w ∈ (runLaterChecks fs c).2.warnings := by
  unfold runLaterChecks
  exact headers_warn_mono _ _ _ (python_warn_mono _ _ _ (gitignore_warn_mono _ _ _
    (dirs_warn_mono _ _ _ (docker_warn_mono _ _ _ (ssl_warn_mono _ _ _ hw)))))

/-! ## The failed counter moves in lockstep with the issues list -/

theorem env_delta (fs : FS) (c : SecurityChecker) :
    (check_env_file fs c).checks_failed + c.issues.length =
      (check_env_file fs c).issues.length + c.checks_failed := by
  rw [check_env_file_spec]
  by_cases h : fs.pathExists ".env" = false
  · simp [h]
    omega
  · by_cases h2 : envMissingVars fs = [] <;> simp [h, h2, envVarIssue] <;> omega

theorem ssl_delta (fs : FS) (c : SecurityChecker) :
    (check_ssl_certificates fs c).checks_failed + c.issues.length =
      (check_ssl_certificates fs c).issues.length + c.checks_failed := by
  rw [check_ssl_spec]
  by_cases h0 : fs.pathExists "nginx_ssl" = false
  · simp [h0]; omega
  · by_cases h1 : fs.pathExists "nginx_ssl/fullchain.pem" = false <;>
      by_cases h2 : fs.pathExists "nginx_ssl/privkey.pem" = false <;>
      simp [h0, h1, h2, sslIssuesDelta] <;> omega

theorem docker_delta (fs : FS) (c : SecurityChecker) :
    (check_docker_files fs c).checks_failed + c.issues.length =
      (check_docker_files fs c).issues.length + c.checks_failed := by
  rw [check_docker_spec]
  simp [dockerIssuesDelta]
  omega

theorem dirs_delta (fs : FS) (c : SecurityChecker) :
    (check_directory_structure fs c).2.checks_failed + c.issues.length =
      (check_directory_structure fs c).2.issues.length + c.checks_failed := by
  rw [check_dirs_snd]
  simp
  omega

theorem gitignore_delta (fs : FS) (c : SecurityChecker) :
    (check_gitignore fs c).checks_failed + c.issues.length =
      (check_gitignore fs c).issues.length + c.checks_failed := by
  rw [check_gitignore_spec]
  split <;> try split
  all_goals first | omega | (simp; omega)

theorem python_delta (fs : FS) (c : SecurityChecker) :
    (check_python_compiled fs c).checks_failed + c.issues.length =
      (check_python_compiled fs c).issues.length + c.checks_failed := by
  unfold check_python_compiled
  split <;> simp <;> omega

theorem headers_delta (fs : FS) (c : SecurityChecker) :
    (check_security_headers fs c).checks_failed + c.issues.length =
      (check_security_headers fs c).issues.length + c.checks_failed := by
  rw [check_headers_spec]
  split <;> try split
  all_goals first | omega | (simp; omega)

theorem env_pres (fs : FS) (c : SecurityChecker) (h : c.checks_failed = c.issues.length) :
    (check_env_file fs c).checks_failed = (check_env_file fs c).issues.length := by
  have := env_delta fs c
  omega

theorem ssl_pres (fs : FS) (c : SecurityChecker) (h : c.checks_failed = c.issues.length) :
    (check_ssl_certificates fs c).checks_failed =
      (check_ssl_certificates fs c).issues.length := by
  have := ssl_delta fs c
  omega

theorem docker_pres (fs : FS) (c : SecurityChecker) (h : c.checks_failed = c.issues.length) :
    (check_docker_files fs c).checks_failed = (check_docker_files fs c).issues.length := by
  have := docker_delta fs c
  omega

theorem dirs_pres (fs : FS) (c : SecurityChecker) (h : c.checks_failed = c.issues.length) :
    (check_directory_structure fs c).2.checks_failed =
      (check_directory_structure fs c).2.issues.length := by
  have := dirs_delta fs c
  omega

theorem gitignore_pres (fs : FS) (c : SecurityChecker) (h : c.checks_failed = c.issues.length) :
    (check_gitignore fs c).checks_failed = (check_gitignore fs c).issues.length := by
  have := gitignore_delta fs c
  omega

theorem python_pres (fs : FS) (c : SecurityChecker) (h : c.checks_failed = c.issues.length) :
    (check_python_compiled fs c).checks_failed =
      (check_python_compiled fs c).issues.length := by
  have := python_delta fs c
  omega

theorem headers_pres (fs : FS) (c : SecurityChecker) (h : c.checks_failed = c.issues.length) :
    (check_security_headers fs c).checks_failed =
      (check_security_headers fs c).issues.length := by
  have := headers_delta fs c
  omega

/-- At the end of every run the failed counter equals the number of issues. -/
theorem run_invariant (fs : FS) :
    (runChecksState fs).checks_failed = (runChecksState fs).issues.length := by
  unfold runChecksState runChecks runLaterChecks
  exact headers_pres _ _ (python_pres _ _ (gitignore_pres _ _ (dirs_pres _ _
    (docker_pres _ _ (ssl_pres _ _ (env_pres _ _ rfl))))))

/-- `print_summary` as an exit status: `0` exactly on an empty issues list. -/
theorem main_eq (fs : FS) :
    securityCheckMain fs = (if (runChecksState fs).issues = [] then 0 else 1) := by
  unfold securityCheckMain print_summary
  by_cases h : (runChecksState fs).issues = [] <;> simp [h]

theorem env_warnings (fs : FS) (c : SecurityChecker) :
    (check_env_file fs c).warnings = c.warnings ++
      (if fs.pathExists ".env" = false then []
       else envPermWarning fs ++ envWeakWarnings fs) := by
  by_cases h : fs.pathExists ".env" = false <;>
    simp [check_env_file_spec, h, List.append_assoc]

/-- All warnings produced after `check_env_file`, expressed over the original
filesystem: the directories the directory check creates are disjoint from the
paths the remaining checks consult, so those checks see the original state. -/
theorem later_warnings (fs : FS) (c : SecurityChecker) :
    (runLaterChecks fs c).2.warnings = c.warnings ++
      ((if fs.pathExists "nginx_ssl" = false then ["⚠️  nginx_ssl directory not found"]
        else []) ++
       ((required_dirs.filter (fun d => !fs.pathExists d)).map
         (fun d => "⚠️  Directory not found: " ++ d ++ " (will be created)")) ++
       (if fs.pathExists ".gitignore" = false then ["⚠️  .gitignore not found"]
        else if gitignoreMissing fs ≠ [] then
          ["⚠️  Missing patterns in .gitignore: " ++
            String.intercalate ", " (gitignoreMissing fs)]
        else []) ++
       (if fs.pathExists "build_secure.py" = true then []
        else ["⚠️  build_secure.py not found"]) ++
       (if fs.pathExists "nginx.prod.conf" = false then []
        else if headersMissing fs ≠ [] then
          ["⚠️  Missing security headers: " ++
            String.intercalate ", " (headersMissing fs)]
        else [])) := by
  unfold runLaterChecks
  rw [headers_warnings, python_warnings, gitignore_warnings, check_dirs_snd,
    docker_warnings, ssl_warnings]
  have hfg : ∀ c' : SecurityChecker,
      (check_directory_structure fs c').1.pathExists ".gitignore" =
        fs.pathExists ".gitignore" := fun c' =>
    check_dirs_fst_frame fs c' ".gitignore" (by decide) (by decide) (by decide)
  have hfb : ∀ c' : SecurityChecker,
      (check_directory_structure fs c').1.pathExists "build_secure.py" =
        fs.pathExists "build_secure.py" := fun c' =>
    check_dirs_fst_frame fs c' "build_secure.py" (by decide) (by decide) (by decide)
  have hfn : ∀ c' : SecurityChecker,
      (check_directory_structure fs c').1.pathExists "nginx.prod.conf" =
        fs.pathExists "nginx.prod.conf" := fun c' =>
    check_dirs_fst_frame fs c' "nginx.prod.conf" (by decide) (by decide) (by decide)
  have hfc : ∀ c' : SecurityChecker,
      (check_directory_structure fs c').1.content = fs.content := fun c' =>
    check_dirs_fst_content fs c'
  simp [gitignoreMissing, headersMissing, hfg, hfb, hfn, hfc, List.append_assoc]

/-! ## The claims -/

/-- C1: for every run, the exit status is `0` exactly when the issues list is
empty at the end of the run (warnings do not enter the exit status), and `1`
whenever any issue was recorded. -/
theorem exit_status_iff_issues_empty (fs : FS) :
    securityCheckMain fs = (if (runChecksState fs).issues = [] then 0 else 1) :=
  main_eq fs

/-- C2 (counterexample): presence of every required file and directory plus
absence of weak patterns does not suffice for an empty issues list, an empty
warnings list and exit status `0`: `fsBad` has every required path and no weak
pattern, yet its run records an issue (missing environment variables), records
warnings (permissions, ignore-file patterns, security headers) and exits `1`. -/
theorem required_present_not_sufficient :
    allRequiredPresent fsBad = true ∧ noWeakPatterns fsBad = true ∧
    ¬ ((runChecksState fsBad).issues = [] ∧ (runChecksState fsBad).warnings = [] ∧
       securityCheckMain fsBad = 0) := by
  refine ⟨by decide, by decide, ?_⟩
  intro hcontra
  exact absurd hcontra.1 (by decide)

/-- C2 (amended): for every run in which every required file and directory is
present, the environment file contains every required variable assignment and
is not world-readable, no weak patterns occur in the environment file, the
ignore file contains every sensitive pattern, and the web-server config
contains every security header, the final issues list is empty, the final
warnings list is empty, and the exit status is `0`. -/
theorem clean_run_no_issues_no_warnings (fs : FS)
    (hall : allRequiredPresent fs = true)
    (hmode : fs.mode ".env" % 8 = 0)
    (hvars : envMissingVars fs = [])
    (hweak : noWeakPatterns fs = true)
    (hgit : gitignoreMissing fs = [])
    (hhdr : headersMissing fs = []) :
    (runChecksState fs).issues = [] ∧ (runChecksState fs).warnings = [] ∧
    securityCheckMain fs = 0 := by
  have hp : fs.pathExists ".env" = true ∧ fs.pathExists "nginx_ssl" = true ∧
      fs.pathExists "nginx_ssl/fullchain.pem" = true ∧
      fs.pathExists "nginx_ssl/privkey.pem" = true ∧
      fs.pathExists "Dockerfile.prod" = true ∧
      fs.pathExists "docker-compose.prod.yml" = true ∧
      fs.pathExists "entrypoint.prod.sh" = true ∧
      fs.pathExists "nginx.prod.conf" = true ∧
      fs.pathExists "logs" = true ∧ fs.pathExists "db_backups" = true ∧
      fs.pathExists ".gitignore" = true ∧ fs.pathExists "build_secure.py" = true := by
    simpa [allRequiredPresent, requiredPaths] using hall
  obtain ⟨h1, h2, h3, h4, h5, h6, h7, h8, h9, h10, h11, h12⟩ := hp
  have hwe : envWeakWarnings fs = [] := by
    unfold noWeakPatterns at hweak
    unfold envWeakWarnings
    have hfil : weak_patterns.filter
        (fun vp => pyIn (pyLower vp.2) (pyLower (fs.content ".env"))) = [] := by
      rw [List.filter_eq_nil_iff]
      intro a ha
      have := List.all_eq_true.mp hweak a ha
      simpa using this
    rw [hfil]
    rfl
  have hissues : (runChecksState fs).issues = [] := by
    unfold runChecksState runChecks
    rw [later_issues]
    have henvi : (check_env_file fs SecurityChecker.init).issues = [] := by
      rw [check_env_file_spec, if_neg (by simp [h1])]
      simp [envVarIssue, hvars, SecurityChecker.init]
    rw [henvi]
    simp [sslIssuesDelta, h2, h3, h4, dockerIssuesDelta, dockerMissingFiles,
      required_files, h5, h6, h7, h8]
  have hwarn : (runChecksState fs).warnings = [] := by
    unfold runChecksState runChecks
    rw [later_warnings, env_warnings]
    simp [h1, h2, h8, h9, h10, h11, h12, hmode, hwe, hgit, hhdr,
      envPermWarning, required_dirs, SecurityChecker.init]
  refine ⟨hissues, hwarn, ?_⟩
  rw [main_eq, if_pos hissues]

/-- C2 (witness): the fully populated, well-configured directory `fsGood`
satisfies all side conditions and indeed runs cleanly with exit status `0`. -/
theorem clean_run_no_issues_no_warnings_witness :
    (runChecksState fsGood).issues = [] ∧ (runChecksState fsGood).warnings = [] ∧
    securityCheckMain fsGood = 0 :=
  clean_run_no_issues_no_warnings fsGood (by decide) (by decide) (by decide)
    (by decide) (by decide) (by decide)

/-- C3: when the environment file is absent, exactly one issue of the whole
run mentions `.env`, and the run continues: the final state is exactly the
remaining six checks executed from the checker holding the single
environment-file issue (so each later check still contributes its own issues
and warnings). -/
theorem missing_env_one_issue_rest_runs (fs : FS)
    (h : fs.pathExists ".env" = false) :
    List.countP (fun s => pyIn ".env" s) (runChecksState fs).issues = 1 ∧
    runChecks fs = runLaterChecks fs
      { SecurityChecker.init with
          issues := ["❌ .env file not found"], checks_failed := 1 } := by
  have henv : check_env_file fs SecurityChecker.init =
      { SecurityChecker.init with
          issues := ["❌ .env file not found"], checks_failed := 1 } := by
    rw [check_env_file_spec, if_pos h]
    simp [SecurityChecker.init]
  constructor
  · have hiss : (runChecksState fs).issues =
        ["❌ .env file not found"] ++ sslIssuesDelta fs ++ dockerIssuesDelta fs := by
      unfold runChecksState runChecks
      rw [henv, later_issues]
    rw [hiss, List.countP_append, List.countP_append]
    have hssl : List.countP (fun s => pyIn ".env" s) (sslIssuesDelta fs) = 0 := by
      unfold sslIssuesDelta
      by_cases h0 : fs.pathExists "nginx_ssl" = false <;>
        by_cases h1 : fs.pathExists "nginx_ssl/fullchain.pem" = false <;>
        by_cases h2 : fs.pathExists "nginx_ssl/privkey.pem" = false <;>
        simp [h0, h1, h2] <;> decide
    have hdock : List.countP (fun s => pyIn ".env" s) (dockerIssuesDelta fs) = 0 := by
      rw [List.countP_eq_zero]
      intro s hs
      unfold dockerIssuesDelta dockerMissingFiles at hs
      obtain ⟨f, hf, rfl⟩ := List.mem_map.mp hs
      have hfm := (List.mem_filter.mp hf).1
      fin_cases hfm <;> decide
    rw [hssl, hdock]
    decide
  · unfold runChecks
    rw [henv]

/-- C3 (witness): the empty directory `fsNone` is missing the environment
file, and its run indeed has exactly one `.env`-mentioning issue while the
remaining checks executed. -/
theorem missing_env_one_issue_rest_runs_witness :
    fsNone.pathExists ".env" = false ∧
    (List.countP (fun s => pyIn ".env" s) (runChecksState fsNone).issues = 1 ∧
     runChecks fsNone = runLaterChecks fsNone
       { SecurityChecker.init with
           issues := ["❌ .env file not found"], checks_failed := 1 }) :=
  ⟨rfl, missing_env_one_issue_rest_runs fsNone rfl⟩

/-- C4: the required-directories check never records an issue and never moves
the failed counter; each missing directory yields exactly one warning and each
present one exactly one pass; after the check all three fixed directories
exist; and running the check a second time adds no issue and no warning. -/
theorem directory_check_never_issues_idempotent (fs : FS) (c : SecurityChecker) :
    (check_directory_structure fs c).2.issues = c.issues ∧
    (check_directory_structure fs c).2.checks_failed = c.checks_failed ∧
    (check_directory_structure fs c).2.warnings = c.warnings ++
      (required_dirs.filter (fun d => !fs.pathExists d)).map
        (fun d => "⚠️  Directory not found: " ++ d ++ " (will be created)") ∧
    (check_directory_structure fs c).2.checks_passed = c.checks_passed +
      (required_dirs.filter (fun d => fs.pathExists d)).length ∧
    (check_directory_structure fs c).1.pathExists "logs" = true ∧
    (check_directory_structure fs c).1.pathExists "db_backups" = true ∧
    (check_directory_structure fs c).1.pathExists "nginx_ssl" = true ∧
    (check_directory_structure (check_directory_structure fs c).1
      (check_directory_structure fs c).2).2.issues =
        (check_directory_structure fs c).2.issues ∧
    (check_directory_structure (check_directory_structure fs c).1
      (check_directory_structure fs c).2).2.warnings =
        (check_directory_structure fs c).2.warnings := by
  obtain ⟨e1, e2, e3⟩ := check_dirs_fst_exists fs c
  refine ⟨dirs_issues fs c, ?_, ?_, ?_, e1, e2, e3, dirs_issues _ _, ?_⟩
  · rw [check_dirs_snd]
  · rw [check_dirs_snd]
  · rw [check_dirs_snd]
  · rw [check_dirs_snd ((check_directory_structure fs c).1)
      ((check_directory_structure fs c).2)]
    simp [required_dirs, e1, e2, e3]

/-- C5: the TLS check only warns (and stops) when the certificate directory is
absent; when present, the full-chain certificate and private key are checked
independently, each missing file contributing its own issue and failed count,
each present file its own pass, and the warnings list is never touched. -/
theorem ssl_check_behavior (fs : FS) (c : SecurityChecker) :
    check_ssl_certificates fs c =
      if fs.pathExists "nginx_ssl" = false then
        { c with warnings := c.warnings ++ ["⚠️  nginx_ssl directory not found"] }
      else
        { c with
            issues := c.issues ++ sslIssuesDelta fs,
            checks_passed := c.checks_passed +
              (if fs.pathExists "nginx_ssl/fullchain.pem" = false then 0 else 1) +
              (if fs.pathExists "nginx_ssl/privkey.pem" = false then 0 else 1),
            checks_failed := c.checks_failed +
              (if fs.pathExists "nginx_ssl/fullchain.pem" = false then 1 else 0) +
              (if fs.pathExists "nginx_ssl/privkey.pem" = false then 1 else 0) } :=
  check_ssl_spec fs c

/-- C6: the Docker-files check records exactly one issue naming each absent
artifact file (the required list has no duplicates), increments the failed
counter once per missing file and the passed counter once per present file,
and never touches the warnings list. -/
theorem docker_files_check_behavior (fs : FS) (c : SecurityChecker) :
    (check_docker_files fs c =
      { c with
          issues := c.issues ++ dockerIssuesDelta fs,
          checks_failed := c.checks_failed + (dockerMissingFiles fs).length,
          checks_passed := c.checks_passed +
            (required_files.filter (fun f => fs.pathExists f)).length }) ∧
    required_files.Nodup :=
  ⟨check_docker_spec fs c, by decide⟩

/-- C7: if the environment file exists and its text contains
`SECRET_KEY=django-insecure-xyz` in any letter case (equivalently, its
lowercased text contains the lowercased string), then some warning of the run
references `SECRET_KEY`. -/
theorem weak_secret_key_warning (fs : FS)
    (hfile : fs.pathExists ".env" = true)
    (hsub : pyIn "secret_key=django-insecure-xyz" (pyLower (fs.content ".env")) = true) :
    (runChecksState fs).warnings.any (fun w => pyIn "SECRET_KEY" w) = true := by
  have hdi : pyIn "django-insecure" (pyLower (fs.content ".env")) = true := by
    refine pyIn_of_parts "django-insecure" "secret_key=django-insecure-xyz" _
      ("secret_key=".toList) ("-xyz".toList) (by decide) hsub
  have hwmem : "⚠️  Possible weak/default value for SECRET_KEY" ∈
      (check_env_file fs SecurityChecker.init).warnings := by
    rw [env_warnings]
    rw [if_neg (by simp [hfile])]
    have hmem : "⚠️  Possible weak/default value for SECRET_KEY" ∈ envWeakWarnings fs := by
      unfold envWeakWarnings weak_patterns
      have hcond : pyIn (pyLower "django-insecure") (pyLower (fs.content ".env")) = true := hdi
      simp [List.filter_cons, hcond]
    exact List.mem_append_right _ (List.mem_append_right _ hmem)
  have hfinal : "⚠️  Possible weak/default value for SECRET_KEY" ∈
      (runChecksState fs).warnings := by
    unfold runChecksState runChecks
    exact later_warn_mono fs _ _ hwmem
  rw [List.any_eq_true]
  exact ⟨_, hfinal, by decide⟩

/-- C7 (witness): `fs7` has an environment file with
`SECRET_KEY=Django-Insecure-xyz`, and the run produces a warning referencing
`SECRET_KEY`. -/
theorem weak_secret_key_warning_witness :
    (fs7.pathExists ".env" = true ∧
     pyIn "secret_key=django-insecure-xyz" (pyLower (fs7.content ".env")) = true) ∧
    (runChecksState fs7).warnings.any (fun w => pyIn "SECRET_KEY" w) = true :=
  ⟨⟨by decide, by decide⟩, weak_secret_key_warning fs7 (by decide) (by decide)⟩

/-- C8: when the web-server config file is absent, the security-headers check
is a perfect no-op: the whole checker state (issues, warnings, both counters)
is returned unchanged. -/
theorem headers_check_skips_when_config_absent (fs : FS) (c : SecurityChecker)
    (h : fs.pathExists "nginx.prod.conf" = false) :
    check_security_headers fs c = c := by
  unfold check_security_headers
  rw [if_pos h]

/-- C8 (witness): on the empty directory the config file is absent and the
check returns the fresh checker unchanged. -/
theorem headers_check_skips_when_config_absent_witness :
    fsNone.pathExists "nginx.prod.conf" = false ∧
    check_security_headers fsNone SecurityChecker.init = SecurityChecker.init :=
  ⟨rfl, headers_check_skips_when_config_absent fsNone SecurityChecker.init rfl⟩

/-- C9: every check moves the failed counter by exactly the number of issues
it appends (warnings never move either counter), so the invariant
`checks_failed = issues.length` holds at the end of every run. -/
theorem failed_counter_matches_issue_count (fs : FS) (c : SecurityChecker) :
    ((check_env_file fs c).checks_failed + c.issues.length =
      (check_env_file fs c).issues.length + c.checks_failed) ∧
    ((check_ssl_certificates fs c).checks_failed + c.issues.length =
      (check_ssl_certificates fs c).issues.length + c.checks_failed) ∧
    ((check_docker_files fs c).checks_failed + c.issues.length =
      (check_docker_files fs c).issues.length + c.checks_failed) ∧
    ((check_directory_structure fs c).2.checks_failed + c.issues.length =
      (check_directory_structure fs c).2.issues.length + c.checks_failed) ∧
    ((check_gitignore fs c).checks_failed + c.issues.length =
      (check_gitignore fs c).issues.length + c.checks_failed) ∧
    ((check_python_compiled fs c).checks_failed + c.issues.length =
      (check_python_compiled fs c).issues.length + c.checks_failed) ∧
    ((check_security_headers fs c).checks_failed + c.issues.length =
      (check_security_headers fs c).issues.length + c.checks_failed) ∧
    (runChecksState fs).checks_failed = (runChecksState fs).issues.length :=
  ⟨env_delta fs c, ssl_delta fs c, docker_delta fs c, dirs_delta fs c,
   gitignore_delta fs c, python_delta fs c, headers_delta fs c, run_invariant fs⟩

/-- C10: the weak-value scan ignores the variable name of each pair and
matches the suspicious substring case-insensitively against the whole
environment-file text: in `fs10` the `DB_PASSWORD` value (`Vp7nT4qZ`) does not
contain `postgres`, yet because `DB_USER=postgres` appears elsewhere in the
file, the weak/default-value warning for `DB_PASSWORD` is still emitted. -/
theorem weak_scan_ignores_variable_name :
    fs10.content ".env" = env10 ∧
    pyIn "postgres" (pyLower "Vp7nT4qZ") = false ∧
    pyIn "DB_PASSWORD=Vp7nT4qZ" env10 = true ∧
    pyIn "DB_USER=postgres" env10 = true ∧
    "⚠️  Possible weak/default value for DB_PASSWORD" ∈ (runChecksState fs10).warnings :=
  ⟨rfl, by decide, by decide, by decide, by decide⟩

end SecurityCheck
